import Mathlib

/-!
Verification of the portal-backend HTTP service (src/server.js and the
revisions in src/unnamed/part_000): a construction-project tracking API
over Postgres with tasks, labor, materials and material images.

The embedding models JavaScript request-field values (`JVal`, covering
`undefined`, `null`, strings and numbers, with JS truthiness and the
loose `== null` check), the database state as lists of rows with serial
id counters and a clock for `created_at` assignment, and each Express
handler as a pure function from a request body and database state to a
response and a new database state.  SQL `ORDER BY ... DESC` is embedded
as `List.insertionSort` with the corresponding total transitive
relation; the upload transaction is modelled with an explicit failure
oracle for each statement, rollback restoring the pre-transaction
snapshot, and an acquired/released ledger for the dedicated connection.
-/

/-- A JavaScript value as it can appear in a parsed request-body field:
absent (`undefined`), explicit `null`, a string, or a number (numbers in
the claims are integral, so `Int` carries them). -/
inductive JVal where
  | undef
  | null
  | str (s : String)
  | num (n : Int)
  deriving DecidableEq, Repr

/-- JS truthiness: `undefined`, `null`, the empty string and `0` are falsy. -/
def JVal.truthy : JVal → Bool
  | .undef => false
  | .null => false
  | .str s => !(s == "")
  | .num n => !(n == 0)

/-- The JS loose comparison `v == null`, true exactly for `null` and
`undefined`. -/
def JVal.isNullish : JVal → Bool
  | .undef => true
  | .null => true
  | _ => false

/-- node-postgres sends an `undefined` query parameter as SQL `NULL`;
every other value is passed through. -/
def jsq : JVal → JVal
  | .undef => .null
  | v => v

/-- JS destructuring default `{ x = d } = body`: the default applies only
when the field is `undefined`, never when it is `null`. -/
def withDefault (v d : JVal) : JVal :=
  match v with
  | .undef => d
  | x => x

/-- The JS nullish-coalescing `v ?? null`, mapping `undefined` and `null`
to `null`. -/
def coalesceNull (v : JVal) : JVal :=
  match v with
  | .undef => .null
  | .null => .null
  | x => x

/-- The SQL generated column `a * b` (`total`): a number when both
operands are numbers, `NULL` otherwise. -/
def jmul : JVal → JVal → JVal
  | .num a, .num b => .num (a * b)
  | _, _ => .null

/-- A row of the `tasks` table. -/
structure TaskRow where
  id : Nat
  title : JVal
  status : JVal
  amount : JVal
  created_at : Nat
  deriving DecidableEq, Repr

/-- A row of the `labor` table; `total` is the stored generated column
`hours * rate`. -/
structure LaborRow where
  id : Nat
  worker_name : JVal
  role : JVal
  hours : JVal
  rate : JVal
  total : JVal
  created_at : Nat
  deriving DecidableEq, Repr

/-- A row of the `materials` table; `total` is the stored generated
column `quantity * unit_cost`, and `image_url` is the additively added
column. -/
structure MaterialRow where
  id : Nat
  item_name : JVal
  category : JVal
  quantity : JVal
  unit_cost : JVal
  total : JVal
  image_url : JVal
  created_at : Nat
  deriving DecidableEq, Repr

/-- A row of the `material_images` table holding the uploaded bytes. -/
structure MaterialImageRow where
  id : Nat
  material_id : Nat
  mime_type : String
  bytes : List Nat
  created_at : Nat
  deriving DecidableEq, Repr

/-- The multer in-memory file object: declared MIME type plus buffer. -/
structure FileData where
  mimetype : String
  buffer : List Nat
  deriving DecidableEq, Repr

/-- The database state: the four tables, the serial-id counters, and a
clock assigning strictly increasing `created_at` stamps. -/
structure DB where
  tasks : List TaskRow
  labor : List LaborRow
  materials : List MaterialRow
  material_images : List MaterialImageRow
  nextTaskId : Nat
  nextLaborId : Nat
  nextMaterialId : Nat
  nextImageId : Nat
  clock : Nat
  deriving DecidableEq, Repr

/-- The empty database right after the schema exists. -/
def emptyDB : DB :=
  { tasks := [], labor := [], materials := [], material_images := []
    nextTaskId := 1, nextLaborId := 1, nextMaterialId := 1, nextImageId := 1
    clock := 0 }

/-- The uniform JSON response envelope `{ ok, data | error }` together
with the HTTP status code. -/
inductive ApiResp (α : Type) where
  | ok (status : Nat) (data : α)
  | err (status : Nat) (msg : String)
  deriving DecidableEq, Repr

/-- Request body of `POST /api/tasks`. -/
structure TasksBody where
  title : JVal
  status : JVal
  amount : JVal
  deriving DecidableEq, Repr

/-- Request body of `POST /api/labor`. -/
structure LaborBody where
  worker_name : JVal
  role : JVal
  hours : JVal
  rate : JVal
  deriving DecidableEq, Repr

/-- Request body of `POST /api/materials` and of the multipart fields of
`POST /api/materials/upload`. -/
structure MaterialsBody where
  item_name : JVal
  category : JVal
  quantity : JVal
  unit_cost : JVal
  deriving DecidableEq, Repr

/-- Request body of `POST /api/materials/url`. -/
structure MaterialsUrlBody where
  image_url : JVal
  item_name : JVal
  category : JVal
  quantity : JVal
  unit_cost : JVal
  deriving DecidableEq, Repr

/-- `POST /api/tasks` (src/server.js lines 90-104): destructure with
defaults `status = 'todo'`, `amount = 0`, reject a falsy title with 400
and no database access, otherwise insert and return the new row. -/
def postTasks (b : TasksBody) (db : DB) : ApiResp TaskRow × DB :=
  let title := b.title
  let status := withDefault b.status (.str "todo")
  let amount := withDefault b.amount (.num 0)
  if !title.truthy then
    (.err 400 "title is required", db)
  else
    let row : TaskRow :=
      { id := db.nextTaskId, title := jsq title, status := jsq status
        amount := jsq amount, created_at := db.clock }
    (.ok 201 row,
      { db with tasks := row :: db.tasks, nextTaskId := db.nextTaskId + 1
                clock := db.clock + 1 })

/-- Insert a `materials` row: parameters go through the node-postgres
`undefined ↦ NULL` conversion and the database computes the generated
`total` and the serial id and timestamp. -/
def insertMaterial (db : DB) (item_name category quantity unit_cost image_url : JVal) :
    MaterialRow × DB :=
  let row : MaterialRow :=
    { id := db.nextMaterialId, item_name := jsq item_name
      category := jsq category, quantity := jsq quantity
      unit_cost := jsq unit_cost
      total := jmul (jsq quantity) (jsq unit_cost)
      image_url := jsq image_url, created_at := db.clock }
  (row,
    { db with materials := row :: db.materials
              nextMaterialId := db.nextMaterialId + 1, clock := db.clock + 1 })

/-- `POST /api/materials` (src/server.js lines 135-151): `item_name`
checked by truthiness, `quantity` and `unit_cost` by `== null`; the
insert names no `image_url` column so it defaults to `NULL`. -/
def postMaterials (b : MaterialsBody) (db : DB) : ApiResp MaterialRow × DB :=
  if !b.item_name.truthy || b.quantity.isNullish || b.unit_cost.isNullish then
    (.err 400 "item_name, quantity, unit_cost required", db)
  else
    let (row, db2) := insertMaterial db b.item_name b.category b.quantity b.unit_cost .null
    (.ok 201 row, db2)

/-- `POST /api/materials/url` (src/server.js lines 156-172): as
`POST /api/materials` but `image_url` is also mandatory (truthiness) and
stored on the row. -/
def postMaterialsUrl (b : MaterialsUrlBody) (db : DB) : ApiResp MaterialRow × DB :=
  if !b.image_url.truthy || !b.item_name.truthy
      || b.quantity.isNullish || b.unit_cost.isNullish then
    (.err 400 "image_url, item_name, quantity, unit_cost required", db)
  else
    let (row, db2) :=
      insertMaterial db b.item_name b.category b.quantity b.unit_cost b.image_url
    (.ok 201 row, db2)

/-- Modelled from the spec: the `POST /api/labor` handler is not among
the files under src/ (only the `labor` table DDL in bootstrap is); per
§4.3 of the spec, `worker_name`, `hours` and `rate` are mandatory and
checked by truthiness (the presence check rejects every falsy value,
including `0`), failing with a 400 client-input error and no insert;
otherwise the row is inserted with the generated `total = hours * rate`. -/
def postLabor (b : LaborBody) (db : DB) : ApiResp LaborRow × DB :=
  if !b.worker_name.truthy || !b.hours.truthy || !b.rate.truthy then
    (.err 400 "worker_name, hours, rate required", db)
  else
    let row : LaborRow :=
      { id := db.nextLaborId, worker_name := jsq b.worker_name
        role := jsq b.role, hours := jsq b.hours, rate := jsq b.rate
        total := jmul (jsq b.hours) (jsq b.rate), created_at := db.clock }
    (.ok 201 row,
      { db with labor := row :: db.labor, nextLaborId := db.nextLaborId + 1
                clock := db.clock + 1 })

/-- The relation `ORDER BY id DESC` sorts `materials` rows by. -/
def matGe (a b : MaterialRow) : Prop := b.id ≤ a.id

instance : DecidableRel matGe := fun a b => Nat.decLe b.id a.id

instance : IsTotal MaterialRow matGe := ⟨fun a b => Nat.le_total b.id a.id⟩

instance : IsTrans MaterialRow matGe :=
  ⟨fun _ _ _ h h2 => Nat.le_trans h2 h⟩

/-- The relation `ORDER BY created_at DESC` sorts `material_images` rows
by. -/
def imgGe (a b : MaterialImageRow) : Prop := b.created_at ≤ a.created_at

instance : DecidableRel imgGe := fun a b => Nat.decLe b.created_at a.created_at

instance : IsTotal MaterialImageRow imgGe :=
  ⟨fun a b => Nat.le_total b.created_at a.created_at⟩

instance : IsTrans MaterialImageRow imgGe :=
  ⟨fun _ _ _ h h2 => Nat.le_trans h2 h⟩

/-- A row of the `GET /api/materials` result set: the material columns
plus the derived `has_file`. -/
structure MaterialListRow where
  id : Nat
  item_name : JVal
  category : JVal
  quantity : JVal
  unit_cost : JVal
  total : JVal
  created_at : Nat
  image_url : JVal
  has_file : Bool
  deriving DecidableEq, Repr

/-- The `EXISTS (SELECT 1 FROM material_images mi WHERE mi.material_id =
m.id)` subquery projected with the material columns. -/
def toListRow (imgs : List MaterialImageRow) (m : MaterialRow) : MaterialListRow :=
  { id := m.id, item_name := m.item_name, category := m.category
    quantity := m.quantity, unit_cost := m.unit_cost, total := m.total
    created_at := m.created_at, image_url := m.image_url
    has_file := imgs.any (fun mi => mi.material_id == m.id) }

/-- `GET /api/materials` (src/server.js lines 109-132): every material,
ordered by id descending, annotated with the `has_file` existence
check. -/
def listMaterials (db : DB) : List MaterialListRow :=
  (List.insertionSort matGe db.materials).map (toListRow db.material_images)

/-- A response of the image endpoint: raw bytes with their MIME type, a
plain-text 404 outside the JSON envelope, or the JSON 500 envelope. -/
inductive ImageResp where
  | bytes (mime : String) (payload : List Nat)
  | plainNotFound (body : String)
  | jsonError (status : Nat) (msg : String)
  deriving DecidableEq, Repr

/-- `GET /api/materials/:id/image` (src/server.js lines 226-244):
`SELECT mime_type, bytes FROM material_images WHERE material_id = $1
ORDER BY created_at DESC LIMIT 1`; an empty result set yields the
plain-text 404 `No image`. -/
def getImage (mid : Nat) (db : DB) : ImageResp :=
  let rows := List.insertionSort imgGe
    (db.material_images.filter (fun mi => mi.material_id == mid))
  match rows with
  | [] => .plainNotFound "No image"
  | r :: _ => .bytes r.mime_type r.bytes

/-- The `UPDATE materials SET ... WHERE id = $5 RETURNING *` row image:
the four columns are overwritten (through the node-postgres parameter
conversion) and the stored generated `total` is recomputed. -/
def updMat (r : MaterialRow) (item_name category quantity unit_cost : JVal) :
    MaterialRow :=
  { r with item_name := jsq item_name, category := jsq category
           quantity := jsq quantity, unit_cost := jsq unit_cost
           total := jmul (jsq quantity) (jsq unit_cost) }

/-- Execute the `UPDATE ... WHERE id = $5 RETURNING *` statement: every
row whose id matches is overwritten, and the returned row is the first
match (`rows[0]`, `none` when no row matched). -/
def updateMaterial (db : DB) (mid : Nat) (item_name category quantity unit_cost : JVal) :
    Option MaterialRow × DB :=
  let ms := db.materials.map
    (fun r => if r.id == mid then updMat r item_name category quantity unit_cost else r)
  (ms.find? (fun r => r.id == mid), { db with materials := ms })

/-- Insert a `material_images` row. -/
def insertImage (db : DB) (mid : Nat) (mime : String) (buf : List Nat) : DB :=
  { db with
    material_images :=
      { id := db.nextImageId, material_id := mid, mime_type := mime
        bytes := buf, created_at := db.clock } :: db.material_images
    nextImageId := db.nextImageId + 1, clock := db.clock + 1 }

/-- The material part of the src/server.js upload transaction (lines
188-214): the INSERT whose third parameter is the conditional
`unit_cost == null ? null : quantity`, followed by the UPDATE of the
same row with the supplied values, returning the updated row
(`material2.rows[0]`). -/
def insertThenUpdate (b : MaterialsBody) (db : DB) : Option MaterialRow × DB :=
  let q3 : JVal := if b.unit_cost.isNullish then .null else b.quantity
  let (r1, db1) := insertMaterial db b.item_name b.category q3 b.unit_cost .null
  updateMaterial db1 r1.id b.item_name b.category b.quantity b.unit_cost

/-- The material part of the src/unnamed/part_000 upload transaction
(lines 162-179): one direct INSERT with `category ?? null`. -/
def directInsert (b : MaterialsBody) (db : DB) : Option MaterialRow × DB :=
  let (r, db2) :=
    insertMaterial db b.item_name (coalesceNull b.category) b.quantity b.unit_cost .null
  (some r, db2)

/-- A per-statement failure oracle for the upload transaction: whether
`BEGIN`, the material INSERT, the corrective UPDATE, the image INSERT or
`COMMIT` raises. -/
structure UploadOracle where
  failBegin : Bool
  failInsMat : Bool
  failUpd : Bool
  failInsImg : Bool
  failCommit : Bool
  deriving DecidableEq, Repr

/-- The oracle under which every statement succeeds. -/
def noFail : UploadOracle := ⟨false, false, false, false, false⟩

/-- Outcome of the upload handler: the response, the database visible
after the request (rollback discards the transaction's writes), and the
ledger of the dedicated pool connection. -/
structure UploadOutcome where
  resp : ApiResp MaterialRow
  db : DB
  acquired : Bool
  released : Bool
  deriving DecidableEq, Repr

/-- `POST /api/materials/upload` (src/server.js lines 177-222): field
validation before any connection is acquired; then a dedicated
connection, `BEGIN`, the conditional-parameter INSERT, the corrective
UPDATE, the image INSERT, `COMMIT`; any raise is caught, rolls the
transaction back (the database reverts to the pre-request snapshot) and
answers 500; the `finally` block releases the connection on every path
that acquired it. -/
def uploadServerJs (b : MaterialsBody) (file : Option FileData) (o : UploadOracle)
    (db : DB) : UploadOutcome :=
  if !b.item_name.truthy || b.quantity.isNullish || b.unit_cost.isNullish then
    ⟨.err 400 "item_name, quantity, unit_cost required", db, false, false⟩
  else
    match file with
    | none => ⟨.err 400 "file is required", db, false, false⟩
    | some f =>
      if o.failBegin then ⟨.err 500 "db error", db, true, true⟩
      else if o.failInsMat then ⟨.err 500 "db error", db, true, true⟩
      else
        match insertThenUpdate b db with
        | (none, _) => ⟨.err 500 "db error", db, true, true⟩
        | (some r2, db2) =>
          if o.failUpd then ⟨.err 500 "db error", db, true, true⟩
          else if o.failInsImg then ⟨.err 500 "db error", db, true, true⟩
          else
            let db3 := insertImage db2 r2.id f.mimetype f.buffer
            if o.failCommit then ⟨.err 500 "db error", db, true, true⟩
            else ⟨.ok 201 r2, db3, true, true⟩

/-- A table of the schema catalog: its name and column names. -/
structure TableDef where
  name : String
  cols : List String
  deriving DecidableEq, Repr

/-- The schema catalog. -/
structure Schema where
  tables : List TableDef
  deriving DecidableEq, Repr

/-- Whether a table of the given name exists. -/
def Schema.hasTable (s : Schema) (n : String) : Bool :=
  s.tables.any (fun t => t.name == n)

/-- Whether a table of the given name exists and carries the column. -/
def Schema.hasColumn (s : Schema) (n c : String) : Bool :=
  s.tables.any (fun t => t.name == n && t.cols.contains c)

/-- Raw `CREATE TABLE`: duplicate-table error when the name exists. -/
def createTable (n : String) (cols : List String) (s : Schema) : Except String Schema :=
  if s.hasTable n then .error ("relation already exists: " ++ n)
  else .ok { tables := s.tables ++ [⟨n, cols⟩] }

/-- `CREATE TABLE IF NOT EXISTS`: a no-op when the table exists. -/
def createTableIfNotExists (n : String) (cols : List String) (s : Schema) :
    Except String Schema :=
  if s.hasTable n then .ok s else createTable n cols s

/-- Append the column to a table of the given name that lacks it. -/
def addColTo (n c : String) (t : TableDef) : TableDef :=
  if t.name == n && !(t.cols.contains c) then ⟨t.name, t.cols ++ [c]⟩ else t

/-- Raw `ALTER TABLE ... ADD COLUMN`: errors when the table is missing or
the column already exists. -/
def addColumn (n c : String) (s : Schema) : Except String Schema :=
  if !s.hasTable n then .error ("relation does not exist: " ++ n)
  else if s.hasColumn n c then .error ("column already exists: " ++ c)
  else .ok { tables := s.tables.map (addColTo n c) }

/-- `ALTER TABLE ... ADD COLUMN IF NOT EXISTS`: a no-op when present. -/
def addColumnIfNotExists (n c : String) (s : Schema) : Except String Schema :=
  if s.hasColumn n c then .ok s else addColumn n c s

/-- Columns of `tasks` as created by bootstrap. -/
def tasksCols : List String := ["id", "title", "status", "amount", "created_at"]

/-- Columns of `labor` as created by bootstrap. -/
def laborCols : List String :=
  ["id", "worker_name", "role", "hours", "rate", "total", "created_at"]

/-- Columns of `materials` as created by bootstrap (`image_url` is added
by the follow-up `ALTER TABLE`). -/
def materialsCols : List String :=
  ["id", "item_name", "category", "quantity", "unit_cost", "total", "created_at"]

/-- Columns of `material_images` as created by bootstrap. -/
def materialImagesCols : List String :=
  ["id", "material_id", "mime_type", "bytes", "created_at"]

/-- `POST /api/bootstrap` (src/server.js lines 26-77): the four
`CREATE TABLE IF NOT EXISTS` statements, then
`ALTER TABLE materials ADD COLUMN IF NOT EXISTS image_url`. -/
def bootstrap (s : Schema) : Except String Schema :=
  (createTableIfNotExists "tasks" tasksCols s).bind (fun s1 =>
  (createTableIfNotExists "labor" laborCols s1).bind (fun s2 =>
  (createTableIfNotExists "materials" materialsCols s2).bind (fun s3 =>
  (createTableIfNotExists "material_images" materialImagesCols s3).bind (fun s4 =>
  addColumnIfNotExists "materials" "image_url" s4))))

/-- `n` successive invocations of `POST /api/bootstrap`, stopping at the
first failure. -/
def bootstrapN : Nat → Schema → Except String Schema
  | 0, s => .ok s
  | n + 1, s => (bootstrap s).bind (bootstrapN n)

/-- The schema of a fresh database. -/
def emptySchema : Schema := ⟨[]⟩

/-- The always-successful result of `CREATE TABLE IF NOT EXISTS`. -/
def ctine (n : String) (cols : List String) (s : Schema) : Schema :=
  if s.hasTable n then s else { tables := s.tables ++ [⟨n, cols⟩] }

/-- The result of `ALTER TABLE ... ADD COLUMN IF NOT EXISTS` when the
table exists. -/
def acine (n c : String) (s : Schema) : Schema :=
  if s.hasColumn n c then s else { tables := s.tables.map (addColTo n c) }

/-- The schema produced by one successful bootstrap invocation. -/
def bootstrapRun (s : Schema) : Schema :=
  acine "materials" "image_url"
    (ctine "material_images" materialImagesCols
      (ctine "materials" materialsCols
        (ctine "labor" laborCols
          (ctine "tasks" tasksCols s))))

/-- Sanity invariant of the serial id generator: every stored image row
references a material id below the next one to be handed out. -/
def DB.wfImages (db : DB) : Prop :=
  ∀ mi ∈ db.material_images, mi.material_id < db.nextMaterialId

/-- The material row on which the src/server.js upload transaction
settles: the UPDATE's values over the freshly inserted serial id and
timestamp, `image_url` left `NULL`. -/
def uploadRow (b : MaterialsBody) (db : DB) : MaterialRow :=
  { id := db.nextMaterialId, item_name := jsq b.item_name
    category := jsq b.category, quantity := jsq b.quantity
    unit_cost := jsq b.unit_cost
    total := jmul (jsq b.quantity) (jsq b.unit_cost)
    image_url := JVal.null, created_at := db.clock }

/-- The database state after the material part of the src/server.js
upload transaction: the settled row prepended, and any pre-existing row
that already carried the fresh id rewritten by the UPDATE. -/
def uploadDbMat (b : MaterialsBody) (db : DB) : DB :=
  { db with
    materials := uploadRow b db ::
      db.materials.map (fun r =>
        if r.id == db.nextMaterialId
        then updMat r b.item_name b.category b.quantity b.unit_cost else r)
    nextMaterialId := db.nextMaterialId + 1, clock := db.clock + 1 }

/-- A database holding one material (id 1) and one image row for it:
concrete input for the list/image witnesses. -/
def dbW : DB :=
  { tasks := [], labor := []
    materials := [⟨1, .str "Lumber", .null, .num 2, .num 5, .num 10, .null, 0⟩]
    material_images := [⟨1, 1, "image/png", [137, 80], 1⟩, ⟨2, 1, "image/jpeg", [255, 216], 3⟩]
    nextTaskId := 1, nextLaborId := 1, nextMaterialId := 2, nextImageId := 3
    clock := 4 }

/-- A truthy value is not `undefined`, so the node-postgres conversion
leaves it unchanged. -/
theorem jsq_of_truthy {v : JVal} (h : v.truthy = true) : jsq v = v := by
  cases v <;> simp_all [JVal.truthy, jsq]

/-- A non-nullish value is not `undefined`, so the node-postgres
conversion leaves it unchanged. -/
theorem jsq_of_not_nullish {v : JVal} (h : v.isNullish = false) : jsq v = v := by
  cases v <;> simp_all [JVal.isNullish, jsq]

/-- C2: a `POST /api/tasks` request with a missing (`undefined`), `null`
or empty title is answered 400 `title is required` with the database
untouched; a request with a non-empty string title and no `status` or
`amount` field is answered 201 with a row whose status is `"todo"` and
whose amount is `0`, prepended to the `tasks` table. -/
theorem postTasks_requires_title_and_defaults (b : TasksBody) (db : DB) :
    ((b.title = JVal.undef ∨ b.title = JVal.null ∨ b.title = JVal.str "") →
      postTasks b db = (.err 400 "title is required", db)) ∧
    (∀ s : String, b.title = JVal.str s → s ≠ "" →
      b.status = JVal.undef → b.amount = JVal.undef →
      postTasks b db =
        (.ok 201 ⟨db.nextTaskId, .str s, .str "todo", .num 0, db.clock⟩,
         { db with
             tasks := ⟨db.nextTaskId, .str s, .str "todo", .num 0, db.clock⟩ :: db.tasks
             nextTaskId := db.nextTaskId + 1, clock := db.clock + 1 })) := by
  constructor
  · rintro (h | h | h) <;> simp [postTasks, h, JVal.truthy]
  · intro s hs hne h1 h2
    simp [postTasks, hs, h1, h2, JVal.truthy, withDefault, jsq, hne]

/-- Witness for C2 at concrete inputs: the empty title is rejected with
the database unchanged, and `"Paint wall"` with no other fields creates
the defaulted row. -/
theorem postTasks_requires_title_and_defaults_witness :
    postTasks ⟨.str "", .undef, .undef⟩ emptyDB
      = (.err 400 "title is required", emptyDB) ∧
    postTasks ⟨.str "Paint wall", .undef, .undef⟩ emptyDB
      = (.ok 201 ⟨1, .str "Paint wall", .str "todo", .num 0, 0⟩,
         { emptyDB with tasks := [⟨1, .str "Paint wall", .str "todo", .num 0, 0⟩]
                        nextTaskId := 2, clock := 1 }) :=
  ⟨(postTasks_requires_title_and_defaults ⟨.str "", .undef, .undef⟩ emptyDB).1
      (Or.inr (Or.inr rfl)),
   (postTasks_requires_title_and_defaults ⟨.str "Paint wall", .undef, .undef⟩ emptyDB).2
      "Paint wall" rfl (by decide) rfl rfl⟩

/-- C10: the `POST /api/tasks` defaults come from JS destructuring
defaults, which fire only on `undefined`: with a truthy title, an
explicit `null` status is inserted as `null` (not `"todo"`), and an
explicit `null` amount is inserted as `null` (not `0`). -/
theorem postTasks_explicit_null_skips_defaults (b : TasksBody) (db : DB)
    (ht : b.title.truthy = true) :
    ∃ r db2, postTasks b db = (.ok 201 r, db2) ∧
      db2.tasks = r :: db.tasks ∧
      (b.status = JVal.null → r.status = JVal.null ∧ r.status ≠ JVal.str "todo") ∧
      (b.amount = JVal.null → r.amount = JVal.null ∧ r.amount ≠ JVal.num 0) := by
  refine ⟨⟨db.nextTaskId, jsq b.title, jsq (withDefault b.status (JVal.str "todo")),
      jsq (withDefault b.amount (JVal.num 0)), db.clock⟩,
    { db with
        tasks := ⟨db.nextTaskId, jsq b.title,
          jsq (withDefault b.status (JVal.str "todo")),
          jsq (withDefault b.amount (JVal.num 0)), db.clock⟩ :: db.tasks
        nextTaskId := db.nextTaskId + 1, clock := db.clock + 1 },
    ?_, rfl, ?_, ?_⟩
  · simp [postTasks, ht]
  · intro h; constructor <;> simp [h, withDefault, jsq]
  · intro h; constructor <;> simp [h, withDefault, jsq]

/-- Witness for C10: a request with title `"Tile roof"` and explicit
`null` status and amount inserts a row keeping both `null`. -/
theorem postTasks_explicit_null_skips_defaults_witness :
    ∃ r db2, postTasks ⟨.str "Tile roof", .null, .null⟩ emptyDB = (.ok 201 r, db2) ∧
      db2.tasks = r :: emptyDB.tasks ∧
      (JVal.null = JVal.null → r.status = JVal.null ∧ r.status ≠ JVal.str "todo") ∧
      (JVal.null = JVal.null → r.amount = JVal.null ∧ r.amount ≠ JVal.num 0) :=
  postTasks_explicit_null_skips_defaults ⟨.str "Tile roof", .null, .null⟩ emptyDB
    (by decide)

/-- C3: `POST /api/labor` validates `worker_name`, `hours` and `rate`
with a truthiness (presence) check, so `hours = 0` or `rate = 0` — while
numerically valid — is rejected 400 with no row inserted; when all three
are truthy the row is inserted. -/
theorem postLabor_falsy_check_rejects_zero (b : LaborBody) (db : DB) :
    ((b.hours = JVal.num 0 ∨ b.rate = JVal.num 0 ∨ b.worker_name.truthy = false) →
      postLabor b db = (.err 400 "worker_name, hours, rate required", db)) ∧
    (b.worker_name.truthy = true → b.hours.truthy = true → b.rate.truthy = true →
      ∃ r db2, postLabor b db = (.ok 201 r, db2) ∧ db2.labor = r :: db.labor) := by
  constructor
  · rintro (h | h | h)
    · simp [postLabor, h, JVal.truthy]
    · simp [postLabor, h, JVal.truthy]
    · simp [postLabor, h]
  · intro h1 h2 h3
    refine ⟨⟨db.nextLaborId, jsq b.worker_name, jsq b.role, jsq b.hours, jsq b.rate,
        jmul (jsq b.hours) (jsq b.rate), db.clock⟩,
      { db with
          labor := ⟨db.nextLaborId, jsq b.worker_name, jsq b.role, jsq b.hours,
            jsq b.rate, jmul (jsq b.hours) (jsq b.rate), db.clock⟩ :: db.labor
          nextLaborId := db.nextLaborId + 1, clock := db.clock + 1 }, ?_, rfl⟩
    simp [postLabor, h1, h2, h3]

/-- Witness for C3: `hours = 0` is rejected with the database unchanged,
and a fully-truthy body is inserted. -/
theorem postLabor_falsy_check_rejects_zero_witness :
    postLabor ⟨.str "Ana", .undef, .num 0, .num 100⟩ emptyDB
      = (.err 400 "worker_name, hours, rate required", emptyDB) ∧
    ∃ r db2, postLabor ⟨.str "Ana", .undef, .num 8, .num 100⟩ emptyDB
      = (.ok 201 r, db2) ∧ db2.labor = r :: emptyDB.labor :=
  ⟨(postLabor_falsy_check_rejects_zero ⟨.str "Ana", .undef, .num 0, .num 100⟩ emptyDB).1
      (Or.inl rfl),
   (postLabor_falsy_check_rejects_zero ⟨.str "Ana", .undef, .num 8, .num 100⟩ emptyDB).2
      (by decide) (by decide) (by decide)⟩

/-- C8: `POST /api/materials` checks `item_name` by truthiness but
`quantity` and `unit_cost` only against `null`/`undefined`, so zero
values are accepted and inserted; falsy `item_name` or nullish
`quantity`/`unit_cost` is rejected 400 with no insert. -/
theorem postMaterials_null_check_accepts_zero (b : MaterialsBody) (db : DB) :
    ((b.item_name.truthy = false ∨ b.quantity.isNullish = true ∨
        b.unit_cost.isNullish = true) →
      postMaterials b db = (.err 400 "item_name, quantity, unit_cost required", db)) ∧
    (b.item_name.truthy = true → b.quantity.isNullish = false →
        b.unit_cost.isNullish = false →
      ∃ r db2, postMaterials b db = (.ok 201 r, db2) ∧
        db2.materials = r :: db.materials ∧
        r.item_name = b.item_name ∧ r.quantity = b.quantity ∧
        r.unit_cost = b.unit_cost) := by
  constructor
  · rintro (h | h | h) <;> simp [postMaterials, h]
  · intro h1 h2 h3
    refine ⟨⟨db.nextMaterialId, jsq b.item_name, jsq b.category, jsq b.quantity,
        jsq b.unit_cost, jmul (jsq b.quantity) (jsq b.unit_cost), jsq JVal.null,
        db.clock⟩,
      { db with
          materials := ⟨db.nextMaterialId, jsq b.item_name, jsq b.category,
            jsq b.quantity, jsq b.unit_cost, jmul (jsq b.quantity) (jsq b.unit_cost),
            jsq JVal.null, db.clock⟩ :: db.materials
          nextMaterialId := db.nextMaterialId + 1, clock := db.clock + 1 },
      ?_, rfl, jsq_of_truthy h1, jsq_of_not_nullish h2, jsq_of_not_nullish h3⟩
    simp [postMaterials, h1, h2, h3, insertMaterial]

/-- Witness for C8: `quantity = 0` and `unit_cost = 0` are accepted and
stored, while a nullish `quantity` is rejected. -/
theorem postMaterials_null_check_accepts_zero_witness :
    (∃ r db2, postMaterials ⟨.str "Sand", .undef, .num 0, .num 0⟩ emptyDB
        = (.ok 201 r, db2) ∧ db2.materials = r :: emptyDB.materials ∧
        r.item_name = .str "Sand" ∧ r.quantity = .num 0 ∧ r.unit_cost = .num 0) ∧
    postMaterials ⟨.str "Sand", .undef, .null, .num 5⟩ emptyDB
      = (.err 400 "item_name, quantity, unit_cost required", emptyDB) :=
  ⟨(postMaterials_null_check_accepts_zero ⟨.str "Sand", .undef, .num 0, .num 0⟩
      emptyDB).2 (by decide) (by decide) (by decide),
   (postMaterials_null_check_accepts_zero ⟨.str "Sand", .undef, .null, .num 5⟩
      emptyDB).1 (Or.inr (Or.inl rfl))⟩

theorem createTableIfNotExists_eq_ok (n : String) (cols : List String) (s : Schema) :
    createTableIfNotExists n cols s = .ok (ctine n cols s) := by
  by_cases h : s.hasTable n = true <;>
    simp [createTableIfNotExists, createTable, ctine, h]

theorem hasTable_ctine_self (n : String) (cols : List String) (s : Schema) :
    (ctine n cols s).hasTable n = true := by
  by_cases h : s.hasTable n = true
  · rw [ctine, if_pos h]; exact h
  · have ht : (ctine n cols s).tables = s.tables ++ [⟨n, cols⟩] := by
      rw [ctine, if_neg h]
    simp [Schema.hasTable, ht, List.any_append]

theorem hasTable_ctine_mono (n m : String) (cols : List String) (s : Schema)
    (h : s.hasTable m = true) : (ctine n cols s).hasTable m = true := by
  by_cases hn : s.hasTable n = true
  · rw [ctine, if_pos hn]; exact h
  · have ht : (ctine n cols s).tables = s.tables ++ [⟨n, cols⟩] := by
      rw [ctine, if_neg hn]
    simp only [Schema.hasTable, ht, List.any_append, Bool.or_eq_true]
    exact Or.inl h

theorem hasColumn_ctine_mono (n m c : String) (cols : List String) (s : Schema)
    (h : s.hasColumn m c = true) : (ctine n cols s).hasColumn m c = true := by
  by_cases hn : s.hasTable n = true
  · rw [ctine, if_pos hn]; exact h
  · have ht : (ctine n cols s).tables = s.tables ++ [⟨n, cols⟩] := by
      rw [ctine, if_neg hn]
    simp only [Schema.hasColumn, ht, List.any_append, Bool.or_eq_true]
    exact Or.inl h

theorem any_name_map_addColTo (n c m : String) : ∀ l : List TableDef,
    (l.map (addColTo n c)).any (fun t => t.name == m)
      = l.any (fun t => t.name == m)
  | [] => rfl
  | t :: ts => by
    have hname : (addColTo n c t).name = t.name := by
      unfold addColTo; split <;> rfl
    simp only [List.map_cons, List.any_cons, hname,
      any_name_map_addColTo n c m ts]

theorem addColumnIfNotExists_eq_ok (n c : String) (s : Schema)
    (h : s.hasTable n = true) :
    addColumnIfNotExists n c s = .ok (acine n c s) := by
  by_cases hc : s.hasColumn n c = true <;>
    simp [addColumnIfNotExists, addColumn, acine, h, hc]

theorem hasTable_acine (n c m : String) (s : Schema) :
    (acine n c s).hasTable m = s.hasTable m := by
  by_cases hc : s.hasColumn n c = true
  · rw [acine, if_pos hc]
  · have ht : (acine n c s).tables = s.tables.map (addColTo n c) := by
      rw [acine, if_neg hc]
    rw [Schema.hasTable, ht, any_name_map_addColTo, Schema.hasTable]

theorem hasColumn_acine_self (n c : String) (s : Schema)
    (h : s.hasTable n = true) : (acine n c s).hasColumn n c = true := by
  by_cases hc : s.hasColumn n c = true
  · rw [acine, if_pos hc]; exact hc
  · rcases List.any_eq_true.mp h with ⟨t, ht, hname⟩
    have hnc : (t.name == n && t.cols.contains c) = false := by
      have h2 := (List.any_eq_false.mp (Bool.eq_false_iff.mpr hc)) t ht
      exact Bool.eq_false_iff.mpr h2
    have hcc : c ∉ t.cols := by
      intro hmem
      rw [hname, Bool.true_and] at hnc
      exact absurd hnc (by simp [hmem])
    have hn2 : t.name = n := by simpa using hname
    apply List.any_eq_true.mpr
    refine ⟨addColTo n c t, ?_, ?_⟩
    · have ht2 : (acine n c s).tables = s.tables.map (addColTo n c) := by
        rw [acine, if_neg hc]
      rw [ht2]
      exact List.mem_map_of_mem _ ht
    · simp [addColTo, hcc, hn2]

theorem bootstrap_eq_ok (s : Schema) : bootstrap s = .ok (bootstrapRun s) := by
  have hmat : ((ctine "material_images" materialImagesCols
      (ctine "materials" materialsCols
        (ctine "labor" laborCols
          (ctine "tasks" tasksCols s))))).hasTable "materials" = true :=
    hasTable_ctine_mono _ _ _ _ (hasTable_ctine_self _ _ _)
  rw [bootstrap, createTableIfNotExists_eq_ok, Except.bind,
    createTableIfNotExists_eq_ok, Except.bind,
    createTableIfNotExists_eq_ok, Except.bind,
    createTableIfNotExists_eq_ok, Except.bind,
    addColumnIfNotExists_eq_ok _ _ _ hmat, bootstrapRun]

theorem bootstrap_fix (s : Schema) :
    bootstrap (bootstrapRun s) = .ok (bootstrapRun s) := by
  have t1 : (bootstrapRun s).hasTable "tasks" = true := by
    rw [bootstrapRun, hasTable_acine]
    exact hasTable_ctine_mono _ _ _ _ (hasTable_ctine_mono _ _ _ _
      (hasTable_ctine_mono _ _ _ _ (hasTable_ctine_self _ _ _)))
  have t2 : (bootstrapRun s).hasTable "labor" = true := by
    rw [bootstrapRun, hasTable_acine]
    exact hasTable_ctine_mono _ _ _ _ (hasTable_ctine_mono _ _ _ _
      (hasTable_ctine_self _ _ _))
  have t3 : (bootstrapRun s).hasTable "materials" = true := by
    rw [bootstrapRun, hasTable_acine]
    exact hasTable_ctine_mono _ _ _ _ (hasTable_ctine_self _ _ _)
  have t4 : (bootstrapRun s).hasTable "material_images" = true := by
    rw [bootstrapRun, hasTable_acine]
    exact hasTable_ctine_self _ _ _
  have t5 : (bootstrapRun s).hasColumn "materials" "image_url" = true := by
    rw [bootstrapRun]
    apply hasColumn_acine_self
    exact hasTable_ctine_mono _ _ _ _ (hasTable_ctine_self _ _ _)
  rw [bootstrap]
  simp [createTableIfNotExists, addColumnIfNotExists, t1, t2, t3, t4, t5,
    Except.bind]

theorem bootstrapN_fix (s2 : Schema) (h : bootstrap s2 = .ok s2) :
    ∀ n, bootstrapN (n + 1) s2 = .ok s2 := by
  intro n
  induction n with
  | zero => simp [bootstrapN, h, Except.bind]
  | succ k ih => rw [bootstrapN, h, Except.bind]; exact ih

theorem bootstrapN_eq_bootstrap (s : Schema) (n : Nat) (h : 1 ≤ n) :
    bootstrapN n s = .ok (bootstrapRun s) := by
  obtain ⟨m, rfl⟩ : ∃ m, n = m + 1 := ⟨n - 1, (Nat.succ_pred_eq_of_pos h).symm⟩
  rw [bootstrapN, bootstrap_eq_ok s, Except.bind]
  cases m with
  | zero => rfl
  | succ k => exact bootstrapN_fix (bootstrapRun s) (bootstrap_fix s) k

/-- C7: `POST /api/bootstrap` is idempotent: it always succeeds (no
duplicate-table or duplicate-column error, every `CREATE`/`ALTER` being
guarded by `IF NOT EXISTS`), and invoking it `n ≥ 1` times yields
exactly the schema of invoking it once. -/
theorem bootstrap_idempotent (s : Schema) (n : Nat) (h : 1 ≤ n) :
    bootstrapN n s = bootstrap s ∧ ∃ s2, bootstrap s = Except.ok s2 := by
  rw [bootstrap_eq_ok s, bootstrapN_eq_bootstrap s n h]
  exact ⟨rfl, _, rfl⟩

/-- Witness for C7: three invocations on a fresh database equal one, and
the invocation succeeds. -/
theorem bootstrap_idempotent_witness :
    bootstrapN 3 emptySchema = bootstrap emptySchema ∧
    ∃ s2, bootstrap emptySchema = Except.ok s2 :=
  bootstrap_idempotent emptySchema 3 (by decide)

/-- A value that is not `undefined` passes the node-postgres conversion
unchanged. -/
theorem jsq_of_ne_undef {v : JVal} (h : v ≠ JVal.undef) : jsq v = v := by
  cases v <;> simp_all [jsq]

/-- C4: in the `GET /api/materials` result set, `has_file` is true
exactly when at least one `material_images` row references the
material's id — whatever `image_url` holds — and the rows are ordered by
id descending. -/
theorem listMaterials_has_file_and_order (db : DB) :
    (∀ r ∈ listMaterials db,
      (r.has_file = true ↔ ∃ mi ∈ db.material_images, mi.material_id = r.id)) ∧
    List.Sorted (fun a b : MaterialListRow => b.id ≤ a.id) (listMaterials db) := by
  constructor
  · intro r hr
    rcases List.mem_map.mp hr with ⟨m, _, rfl⟩
    simp [toListRow, List.any_eq_true]
  · exact List.Pairwise.map _ (fun a b h => h)
      (List.sorted_insertionSort matGe db.materials)

/-- Witness for C4: in `dbW` the listed row for material 1 reports
`has_file = true`, matching the existing image row. -/
theorem listMaterials_has_file_and_order_witness :
    (toListRow dbW.material_images
        ⟨1, .str "Lumber", .null, .num 2, .num 5, .num 10, .null, 0⟩).has_file = true
      ↔ ∃ mi ∈ dbW.material_images,
          mi.material_id = (toListRow dbW.material_images
            ⟨1, .str "Lumber", .null, .num 2, .num 5, .num 10, .null, 0⟩).id :=
  (listMaterials_has_file_and_order dbW).1
    (toListRow dbW.material_images
      ⟨1, .str "Lumber", .null, .num 2, .num 5, .num 10, .null, 0⟩)
    (by decide)

/-- C6: `GET /api/materials/:id/image` answers the plain-text body
`No image` with status 404 (outside the JSON envelope) when no
`material_images` row references the id; when rows exist it serves
exactly the bytes and MIME type of the row with the greatest
`created_at`. -/
theorem getImage_latest_or_404 (mid : Nat) (db : DB) :
    ((∀ mi ∈ db.material_images, mi.material_id ≠ mid) →
      getImage mid db = .plainNotFound "No image") ∧
    (∀ r ∈ db.material_images, r.material_id = mid →
      (∀ r2 ∈ db.material_images, r2.material_id = mid → r2 ≠ r →
        r2.created_at < r.created_at) →
      getImage mid db = .bytes r.mime_type r.bytes) := by
  constructor
  · intro h
    have hf : db.material_images.filter (fun mi => mi.material_id == mid) = [] :=
      List.filter_eq_nil_iff.mpr (fun mi hmi => by simp [h mi hmi])
    simp [getImage, hf]
  · intro r hr hrm hmax
    have hrf : r ∈ db.material_images.filter (fun mi => mi.material_id == mid) :=
      List.mem_filter.mpr ⟨hr, by simp [hrm]⟩
    have hrs : r ∈ List.insertionSort imgGe
        (db.material_images.filter (fun mi => mi.material_id == mid)) :=
      (List.mem_insertionSort imgGe).mpr hrf
    have hsorted := List.sorted_insertionSort imgGe
      (db.material_images.filter (fun mi => mi.material_id == mid))
    cases hs : List.insertionSort imgGe
        (db.material_images.filter (fun mi => mi.material_id == mid)) with
    | nil => rw [hs] at hrs; cases hrs
    | cons h0 t0 =>
      rw [hs] at hrs hsorted
      have hh0s : h0 ∈ List.insertionSort imgGe
          (db.material_images.filter (fun mi => mi.material_id == mid)) := by
        rw [hs]; exact List.mem_cons_self h0 t0
      have hh0f := (List.mem_insertionSort imgGe).mp hh0s
      have hh0 : h0 ∈ db.material_images := (List.mem_filter.mp hh0f).1
      have hh0m : h0.material_id = mid := by
        have := (List.mem_filter.mp hh0f).2
        simpa using this
      have heq : h0 = r := by
        rcases List.mem_cons.mp hrs with h | h
        · exact h.symm
        · by_contra hne
          have hlt : h0.created_at < r.created_at := hmax h0 hh0 hh0m hne
          have hle : r.created_at ≤ h0.created_at :=
            List.rel_of_sorted_cons hsorted r h
          exact absurd (Nat.lt_of_lt_of_le hlt hle) (Nat.lt_irrefl _)
      simp [getImage, hs, heq]

/-- Witness for C6: in `dbW`, material 1 carries two image rows and the
endpoint serves the more recent (`image/jpeg`) one; material 7 has no
rows and receives the plain-text 404. -/
theorem getImage_latest_or_404_witness :
    getImage 7 dbW = .plainNotFound "No image" ∧
    getImage 1 dbW = .bytes "image/jpeg" [255, 216] :=
  ⟨(getImage_latest_or_404 7 dbW).1 (by decide),
   (getImage_latest_or_404 1 dbW).2 ⟨2, 1, "image/jpeg", [255, 216], 3⟩
     (by decide) (by decide) (by decide)⟩

/-- C5: after a successful `POST /api/materials/url`, the subsequent
`GET /api/materials` lists the new material with its `image_url`
populated to the stored value and `has_file = false`, since the request
created no `material_images` row and the fresh serial id matches no
existing one. -/
theorem materialsUrl_roundTrip (b : MaterialsUrlBody) (db : DB)
    (hwf : DB.wfImages db) (hurl : b.image_url.truthy = true)
    (hi : b.item_name.truthy = true) (hq : b.quantity.isNullish = false)
    (hu : b.unit_cost.isNullish = false) :
    ∃ r db2, postMaterialsUrl b db = (.ok 201 r, db2) ∧
      db2.material_images = db.material_images ∧
      ∃ lr ∈ listMaterials db2, lr.id = r.id ∧
        lr.image_url = b.image_url ∧ lr.has_file = false := by
  refine ⟨⟨db.nextMaterialId, jsq b.item_name, jsq b.category, jsq b.quantity,
      jsq b.unit_cost, jmul (jsq b.quantity) (jsq b.unit_cost), jsq b.image_url,
      db.clock⟩,
    { db with
        materials := ⟨db.nextMaterialId, jsq b.item_name, jsq b.category,
          jsq b.quantity, jsq b.unit_cost, jmul (jsq b.quantity) (jsq b.unit_cost),
          jsq b.image_url, db.clock⟩ :: db.materials
        nextMaterialId := db.nextMaterialId + 1, clock := db.clock + 1 },
    ?_, rfl,
    ⟨toListRow db.material_images
      ⟨db.nextMaterialId, jsq b.item_name, jsq b.category, jsq b.quantity,
        jsq b.unit_cost, jmul (jsq b.quantity) (jsq b.unit_cost), jsq b.image_url,
        db.clock⟩, ?_, rfl, ?_, ?_⟩⟩
  · simp [postMaterialsUrl, insertMaterial, hurl, hi, hq, hu]
  · apply List.mem_map_of_mem
    apply (List.mem_insertionSort matGe).mpr
    exact List.mem_cons_self _ _
  · exact jsq_of_truthy hurl
  · show (db.material_images.any fun mi => mi.material_id == db.nextMaterialId) = false
    apply List.any_eq_false.mpr
    intro mi hmi
    simp [Nat.ne_of_lt (hwf mi hmi)]

/-- Witness for C5: a concrete `POST /api/materials/url` on the empty
database, then listed with the stored URL and `has_file = false`. -/
theorem materialsUrl_roundTrip_witness :
    ∃ r db2, postMaterialsUrl
        ⟨.str "http://x/y.png", .str "Pipe", .undef, .num 3, .num 7⟩ emptyDB
      = (.ok 201 r, db2) ∧
      db2.material_images = emptyDB.material_images ∧
      ∃ lr ∈ listMaterials db2, lr.id = r.id ∧
        lr.image_url = .str "http://x/y.png" ∧ lr.has_file = false :=
  materialsUrl_roundTrip ⟨.str "http://x/y.png", .str "Pipe", .undef, .num 3, .num 7⟩
    emptyDB (by simp [DB.wfImages, emptyDB]) (by decide) (by decide) (by decide)
    (by decide)

/-- `?? null` and the node-postgres conversion normalise a parameter the
same way. -/
theorem jsq_coalesceNull (v : JVal) : jsq (coalesceNull v) = jsq v := by
  cases v <;> rfl

/-- An UPDATE keyed on an id no row carries leaves the table unchanged. -/
theorem map_updMat_id {l : List MaterialRow} {mid : Nat}
    (h : ∀ m ∈ l, m.id ≠ mid) (i c q u : JVal) :
    l.map (fun r => if r.id == mid then updMat r i c q u else r) = l := by
  induction l with
  | nil => rfl
  | cons x xs ih =>
    rw [List.map_cons, if_neg (by simp [h x (List.mem_cons_self x xs)]),
      ih (fun m hm => h m (List.mem_cons_of_mem x hm))]

/-- Computation of the src/server.js insert-then-update pair: the
conditional-parameter INSERT allocates the serial id and timestamp, the
UPDATE settles the four supplied columns on that row (also touching any
pre-existing row that carried the same id). -/
theorem insertThenUpdate_eq (b : MaterialsBody) (db : DB) :
    insertThenUpdate b db = (some (uploadRow b db), uploadDbMat b db) := by
  simp [insertThenUpdate, insertMaterial, updateMaterial, uploadRow, uploadDbMat,
    updMat, jsq]

/-- C1: in `POST /api/materials/upload`, the dedicated connection is
released exactly when it was acquired (the `finally` covers every exit
path, and validation failures never acquire one); when field validation
passes, the connection is acquired, any statement failure inside the
transaction (including the image insert and the commit) rolls the whole
transaction back — the visible database is exactly the pre-request one,
so no material row from the request is observable — and only the
all-success run commits, leaving both the material row and its image row
stored. -/
theorem upload_transaction_atomic (b : MaterialsBody) (file : Option FileData)
    (o : UploadOracle) (db : DB) :
    (uploadServerJs b file o db).released = (uploadServerJs b file o db).acquired ∧
    (∀ f, file = some f → b.item_name.truthy = true →
      b.quantity.isNullish = false → b.unit_cost.isNullish = false →
      (uploadServerJs b file o db).acquired = true ∧
      ((o.failBegin || o.failInsMat || o.failUpd || o.failInsImg || o.failCommit)
          = true →
        (uploadServerJs b file o db).db = db ∧
        (uploadServerJs b file o db).resp = .err 500 "db error") ∧
      ((o.failBegin || o.failInsMat || o.failUpd || o.failInsImg || o.failCommit)
          = false →
        (uploadServerJs b file o db).resp = .ok 201 (uploadRow b db) ∧
        uploadRow b db ∈ (uploadServerJs b file o db).db.materials ∧
        ∃ mi ∈ (uploadServerJs b file o db).db.material_images,
          mi.material_id = (uploadRow b db).id ∧ mi.mime_type = f.mimetype ∧
          mi.bytes = f.buffer)) := by
  constructor
  · by_cases hv : (!b.item_name.truthy || b.quantity.isNullish
        || b.unit_cost.isNullish) = true
    · simp [uploadServerJs, hv]
    · rw [Bool.not_eq_true] at hv
      rcases file with _ | f
      · simp [uploadServerJs, hv]
      · rcases o with ⟨fb, fm, fu, fi, fc⟩
        cases fb <;> cases fm <;> cases fu <;> cases fi <;> cases fc <;>
          simp [uploadServerJs, hv, insertThenUpdate_eq]
  · rintro f rfl h1 h2 h3
    have hv : (!b.item_name.truthy || b.quantity.isNullish
        || b.unit_cost.isNullish) = false := by
      simp [h1, h2, h3]
    rcases o with ⟨fb, fm, fu, fi, fc⟩
    refine ⟨?_, ?_, ?_⟩
    · cases fb <;> cases fm <;> cases fu <;> cases fi <;> cases fc <;>
        simp [uploadServerJs, hv, insertThenUpdate_eq]
    · intro hfail
      cases fb <;> cases fm <;> cases fu <;> cases fi <;> cases fc <;>
        simp_all [uploadServerJs, insertThenUpdate_eq]
    · intro hok
      have hflags : fb = false ∧ fm = false ∧ fu = false ∧ fi = false ∧ fc = false := by
        cases fb <;> cases fm <;> cases fu <;> cases fi <;> cases fc <;> simp_all
      obtain ⟨rfl, rfl, rfl, rfl, rfl⟩ := hflags
      refine ⟨?_, ?_,
        ⟨db.nextImageId, db.nextMaterialId, f.mimetype, f.buffer, db.clock + 1⟩,
        ?_, rfl, rfl, rfl⟩
      · simp [uploadServerJs, hv, insertThenUpdate_eq]
      · simp [uploadServerJs, hv, insertThenUpdate_eq, insertImage, uploadDbMat]
      · simp [uploadServerJs, hv, insertThenUpdate_eq, insertImage, uploadDbMat,
          uploadRow]

/-- Witness for C1: on the empty database, a validated upload whose
image insert fails leaves the database untouched and answers 500, while
the all-success run answers 201 and stores both rows. -/
theorem upload_transaction_atomic_witness :
    ((uploadServerJs ⟨.str "Gravel", .undef, .num 1, .num 2⟩
        (some ⟨"image/png", [1, 2]⟩) ⟨false, false, false, true, false⟩ emptyDB).db
      = emptyDB ∧
     (uploadServerJs ⟨.str "Gravel", .undef, .num 1, .num 2⟩
        (some ⟨"image/png", [1, 2]⟩) ⟨false, false, false, true, false⟩ emptyDB).resp
      = .err 500 "db error") ∧
    (uploadServerJs ⟨.str "Gravel", .undef, .num 1, .num 2⟩
        (some ⟨"image/png", [1, 2]⟩) noFail emptyDB).resp
      = .ok 201 (uploadRow ⟨.str "Gravel", .undef, .num 1, .num 2⟩ emptyDB) :=
  ⟨((upload_transaction_atomic ⟨.str "Gravel", .undef, .num 1, .num 2⟩
      (some ⟨"image/png", [1, 2]⟩) ⟨false, false, false, true, false⟩ emptyDB).2
      ⟨"image/png", [1, 2]⟩ rfl (by decide) (by decide) (by decide)).2.1 (by decide),
   (((upload_transaction_atomic ⟨.str "Gravel", .undef, .num 1, .num 2⟩
      (some ⟨"image/png", [1, 2]⟩) noFail emptyDB).2
      ⟨"image/png", [1, 2]⟩ rfl (by decide) (by decide) (by decide)).2.2 (by decide)).1⟩

/-- C9: under the upload handler's validation, the src/server.js
insert-with-conditional-parameter followed by the UPDATE of the same row
is equivalent to the single direct INSERT of the src/unnamed/part_000
revision, and the row it settles on — the one carried by the 201
response — holds exactly the supplied `item_name`, `quantity` and
`unit_cost` (and `category`, whenever one was supplied). -/
theorem insertThenUpdate_refines_directInsert (b : MaterialsBody) (db : DB)
    (hwf : ∀ m ∈ db.materials, m.id ≠ db.nextMaterialId)
    (h1 : b.item_name.truthy = true) (h2 : b.quantity.isNullish = false)
    (h3 : b.unit_cost.isNullish = false) :
    insertThenUpdate b db = directInsert b db ∧
    (uploadRow b db).item_name = b.item_name ∧
    (uploadRow b db).quantity = b.quantity ∧
    (uploadRow b db).unit_cost = b.unit_cost ∧
    (b.category ≠ JVal.undef → (uploadRow b db).category = b.category) ∧
    (∀ f : FileData,
      (uploadServerJs b (some f) noFail db).resp = .ok 201 (uploadRow b db)) := by
  refine ⟨?_, jsq_of_truthy h1, jsq_of_not_nullish h2, jsq_of_not_nullish h3,
    fun h => jsq_of_ne_undef h, ?_⟩
  · rw [insertThenUpdate_eq]
    simp only [directInsert, uploadDbMat]
    rw [map_updMat_id hwf]
    simp [uploadRow, insertMaterial, jsq_coalesceNull, jsq]
    cases b.category <;> rfl
  · intro f
    have hv : (!b.item_name.truthy || b.quantity.isNullish
        || b.unit_cost.isNullish) = false := by
      simp [h1, h2, h3]
    simp [uploadServerJs, hv, insertThenUpdate_eq, noFail]

/-- Witness for C9: a concrete validated body on the empty database —
the two transaction shapes coincide and the settled row repeats the
supplied fields. -/
theorem insertThenUpdate_refines_directInsert_witness :
    insertThenUpdate ⟨.str "Cement", .str "masonry", .num 4, .num 9⟩ emptyDB
      = directInsert ⟨.str "Cement", .str "masonry", .num 4, .num 9⟩ emptyDB ∧
    (uploadRow ⟨.str "Cement", .str "masonry", .num 4, .num 9⟩ emptyDB).item_name
      = .str "Cement" ∧
    (uploadRow ⟨.str "Cement", .str "masonry", .num 4, .num 9⟩ emptyDB).quantity
      = .num 4 ∧
    (uploadRow ⟨.str "Cement", .str "masonry", .num 4, .num 9⟩ emptyDB).unit_cost
      = .num 9 ∧
    (JVal.str "masonry" ≠ JVal.undef →
      (uploadRow ⟨.str "Cement", .str "masonry", .num 4, .num 9⟩ emptyDB).category
        = .str "masonry") ∧
    (∀ f : FileData,
      (uploadServerJs ⟨.str "Cement", .str "masonry", .num 4, .num 9⟩ (some f)
          noFail emptyDB).resp
        = .ok 201 (uploadRow ⟨.str "Cement", .str "masonry", .num 4, .num 9⟩ emptyDB)) :=
  insertThenUpdate_refines_directInsert ⟨.str "Cement", .str "masonry", .num 4, .num 9⟩
    emptyDB (by simp [emptyDB]) (by decide) (by decide) (by decide)
